import Mathlib

set_option linter.unusedVariables false

/-!
Verification of the keyboard-navigation suppression mixin
(alfresco/lists/KeyboardNavigationSuppressionMixin).

The mixin is a small stateful DOM-event filter.  We embed it shallowly:
JavaScript values are modelled by `JSValue` (strict equality `===` on the
primitives involved coincides with structural equality), DOM events by
structures of `JSValue` fields, the widget instance by a record saying which
optional callbacks are registered (the source guards each call with
`typeof f === "function"`), and the mutable state by `MixinState`, whose
single field `suppressKeyNavigation` holds an arbitrary `JSValue` so that the
invariant that it is always a boolean is a theorem, not an assumption.

Each handler is translated to a pure function
`Instance → MixinState → input → MixinState × List Effect`; the ordered
effect list records propagation stops, callback invocations, delegation to
the inherited `_KeyNavContainer` handler, and emitted custom events, in the
order the source performs them.
-/

namespace KeyNav

/-- JavaScript primitive values relevant to the mixin.  `undefined` models a
missing field. -/
inductive JSValue where
  | undefined : JSValue
  | null : JSValue
  | bool (b : Bool) : JSValue
  | num (n : Int) : JSValue
  | str (s : String) : JSValue
  deriving DecidableEq, Repr

/-- Key constants from the dojo/keys module used by the source. -/
def keysENTER : JSValue := JSValue.num 13

/-- Key constant dojo/keys.ESCAPE. -/
def keysESCAPE : JSValue := JSValue.num 27

/-- A keyboard event: every field the mixin reads, plus the other modifier
keys (which the source never reads) so that independence from them is
expressible. -/
structure KeyEvent where
  ctrlKey : JSValue := JSValue.undefined
  charCode : JSValue := JSValue.undefined
  charOrCode : JSValue := JSValue.undefined
  keyCode : JSValue := JSValue.undefined
  shiftKey : JSValue := JSValue.undefined
  altKey : JSValue := JSValue.undefined
  metaKey : JSValue := JSValue.undefined
  deriving DecidableEq, Repr

/-- A click event handled by `suppressFocusRequest`; its payload is opaque to
the mixin. -/
structure ClickEvent where
  target : JSValue := JSValue.undefined
  deriving DecidableEq, Repr

/-- The custom `onSuppressKeyNavigation` notification event; `suppress` is the
payload field (`JSValue.undefined` when the field is missing). -/
structure SuppressEvent where
  suppress : JSValue := JSValue.undefined
  deriving DecidableEq, Repr

/-- The widget instance as the mixin sees it: the identifier of its root DOM
node, and whether each optional callback is registered as a function (the
source tests `typeof cb === "function"` before calling). -/
structure Instance where
  domNode : Nat
  onEditClick : Bool := false
  onCancel : Bool := false
  onSave : Bool := false
  deriving DecidableEq, Repr

/-- The mutable per-widget state: the `suppressKeyNavigation` field.  It is a
`JSValue`, not a `Bool`, so that the claim that it only ever holds a boolean
is provable rather than baked in. -/
structure MixinState where
  suppressKeyNavigation : JSValue
  deriving DecidableEq, Repr

/-- The state at widget construction: the source declares
`suppressKeyNavigation: false`. -/
def initState : MixinState := { suppressKeyNavigation := JSValue.bool false }

/-- Observable actions a handler performs, in source order. -/
inductive Effect where
  | stopEvent : Effect
  | callOnEditClick : Effect
  | callOnCancel : Effect
  | callOnSave : Effect
  | inheritedKeypress : Effect
  | inheritedKeydown : Effect
  | emit (targetNode : Nat) (eventName : String) (bubbles : Bool)
      (cancelable : Bool) (suppress : JSValue) : Effect
  deriving DecidableEq, Repr

/-- Whether an effect is the invocation of one of the three optional
callbacks. -/
def Effect.isCallback : Effect → Bool
  | Effect.callOnEditClick => true
  | Effect.callOnCancel => true
  | Effect.callOnSave => true
  | _ => false

/-- Translation of `onKeyPress`: on `evt.ctrlKey === true && evt.charCode ===
101` it stops the event and, if `onEditClick` is a function, invokes it. -/
def onKeyPress (inst : Instance) (s : MixinState) (evt : KeyEvent) :
    MixinState × List Effect :=
  if evt.ctrlKey = JSValue.bool true ∧ evt.charCode = JSValue.num 101 then
    (s, Effect.stopEvent ::
        (if inst.onEditClick then [Effect.callOnEditClick] else []))
  else
    (s, [])

/-- Translation of `onValueEntryKeyPress`: Escape stops the event and invokes
`onCancel` when registered; otherwise Enter stops the event and invokes
`onSave` when registered; otherwise nothing happens. -/
def onValueEntryKeyPress (inst : Instance) (s : MixinState) (e : KeyEvent) :
    MixinState × List Effect :=
  if e.charOrCode = keysESCAPE ∨ e.keyCode = keysESCAPE then
    (s, Effect.stopEvent ::
        (if inst.onCancel then [Effect.callOnCancel] else []))
  else if e.charOrCode = keysENTER ∨ e.keyCode = keysENTER then
    (s, Effect.stopEvent ::
        (if inst.onSave then [Effect.callOnSave] else []))
  else
    (s, [])

/-- Name of the custom notification event emitted and handled by the mixin. -/
def suppressEventName : String := "onSuppressKeyNavigation"

/-- Translation of `suppressContainerKeyboardNavigation`: emits the custom
`onSuppressKeyNavigation` event, bubbling and cancelable, with the given
suppress payload, on `node || this.domNode`. -/
def suppressContainerKeyboardNavigation (inst : Instance) (s : MixinState)
    (suppress : JSValue) (node : Option Nat) : MixinState × List Effect :=
  (s, [Effect.emit (node.getD inst.domNode) suppressEventName
        true true suppress])

/-- Translation of `suppressFocusRequest`: `evt && event.stop(evt)`; a present
event object is truthy, so the event is stopped whenever one is supplied. -/
def suppressFocusRequest (inst : Instance) (s : MixinState)
    (evt : Option ClickEvent) : MixinState × List Effect :=
  match evt with
  | some _ => (s, [Effect.stopEvent])
  | none => (s, [])

/-- Translation of `onSuppressKeyNavigation`: stores
`evt.suppress === true` (a boolean) into the state field. -/
def onSuppressKeyNavigation (inst : Instance) (s : MixinState)
    (evt : SuppressEvent) : MixinState × List Effect :=
  ({ s with suppressKeyNavigation :=
      JSValue.bool (decide (evt.suppress = JSValue.bool true)) }, [])

/-- Translation of `_onContainerKeypress`: delegates to the inherited
`_KeyNavContainer` handler exactly when `suppressKeyNavigation === false`. -/
def onContainerKeypress (inst : Instance) (s : MixinState) (evt : KeyEvent) :
    MixinState × List Effect :=
  if s.suppressKeyNavigation = JSValue.bool false then
    (s, [Effect.inheritedKeypress])
  else
    (s, [])

/-- Translation of `_onContainerKeydown`: delegates to the inherited
`_KeyNavContainer` handler exactly when `suppressKeyNavigation === false`. -/
def onContainerKeydown (inst : Instance) (s : MixinState) (evt : KeyEvent) :
    MixinState × List Effect :=
  if s.suppressKeyNavigation = JSValue.bool false then
    (s, [Effect.inheritedKeydown])
  else
    (s, [])

/-- One externally triggered invocation of a mixin operation. -/
inductive Op where
  | keyPress (evt : KeyEvent) : Op
  | valueEntryKeyPress (evt : KeyEvent) : Op
  | suppressNav (suppress : JSValue) (node : Option Nat) : Op
  | focusRequest (evt : Option ClickEvent) : Op
  | suppressNotice (evt : SuppressEvent) : Op
  | containerKeypress (evt : KeyEvent) : Op
  | containerKeydown (evt : KeyEvent) : Op
  deriving DecidableEq, Repr

/-- Whether an operation is one of the two container dispatch handlers. -/
def Op.isDispatch : Op → Bool
  | Op.containerKeypress _ => true
  | Op.containerKeydown _ => true
  | _ => false

/-- Single step of the mixin: dispatches an operation to its handler. -/
def step (inst : Instance) (s : MixinState) : Op → MixinState × List Effect
  | Op.keyPress evt => onKeyPress inst s evt
  | Op.valueEntryKeyPress evt => onValueEntryKeyPress inst s evt
  | Op.suppressNav suppress node =>
      suppressContainerKeyboardNavigation inst s suppress node
  | Op.focusRequest evt => suppressFocusRequest inst s evt
  | Op.suppressNotice evt => onSuppressKeyNavigation inst s evt
  | Op.containerKeypress evt => onContainerKeypress inst s evt
  | Op.containerKeydown evt => onContainerKeydown inst s evt

/-- Runs a finite sequence of operations from a state, accumulating the
emitted effects in order. -/
def run (inst : Instance) (s : MixinState) : List Op → MixinState × List Effect
  | [] => (s, [])
  | op :: ops =>
      let r1 := step inst s op
      let r2 := run inst r1.1 ops
      (r2.1, r1.2 ++ r2.2)

/-- Number of times the inherited navigation capability is invoked in an
effect trace. -/
def navInvocations (effs : List Effect) : Nat :=
  effs.count Effect.inheritedKeypress + effs.count Effect.inheritedKeydown

/-- The `suppressKeyNavigation` field holds a boolean literal. -/
def isBoolJS (v : JSValue) : Prop :=
  v = JSValue.bool true ∨ v = JSValue.bool false

/-- Running the empty sequence does nothing. -/
theorem run_nil (inst : Instance) (s : MixinState) : run inst s [] = (s, []) :=
  rfl

/-- Unfolding lemma for `run` on a nonempty sequence. -/
theorem run_cons (inst : Instance) (s : MixinState) (op : Op) (ops : List Op) :
    run inst s (op :: ops) =
      ((run inst (step inst s op).1 ops).1,
        (step inst s op).2 ++ (run inst (step inst s op).1 ops).2) :=
  rfl

/-- Inherited-handler invocation counts add over trace concatenation. -/
theorem navInvocations_append (a b : List Effect) :
    navInvocations (a ++ b) = navInvocations a + navInvocations b := by
  simp only [navInvocations, List.count_append]
  omega

/-- Every operation other than the suppression notice leaves the mutable
state untouched. -/
theorem step_fst_of_not_notice (inst : Instance) (s : MixinState) (op : Op)
    (h : ∀ evt : SuppressEvent, op ≠ Op.suppressNotice evt) :
    (step inst s op).1 = s := by
  cases op with
  | keyPress evt =>
      simp only [step, onKeyPress]
      split <;> rfl
  | valueEntryKeyPress evt =>
      simp only [step, onValueEntryKeyPress]
      split
      · rfl
      · split <;> rfl
  | suppressNav suppress node => rfl
  | focusRequest evt => cases evt <;> rfl
  | suppressNotice evt => exact absurd rfl (h evt)
  | containerKeypress evt =>
      simp only [step, onContainerKeypress]
      split <;> rfl
  | containerKeydown evt =>
      simp only [step, onContainerKeydown]
      split <;> rfl

/-- A single step preserves booleanness of the suppression flag. -/
theorem step_preserves_isBool (inst : Instance) (s : MixinState) (op : Op)
    (h : isBoolJS s.suppressKeyNavigation) :
    isBoolJS (step inst s op).1.suppressKeyNavigation := by
  by_cases hn : ∀ evt : SuppressEvent, op ≠ Op.suppressNotice evt
  · rw [step_fst_of_not_notice inst s op hn]
    exact h
  · push_neg at hn
    obtain ⟨evt, rfl⟩ := hn
    simp only [step, onSuppressKeyNavigation]
    unfold isBoolJS
    cases decide (evt.suppress = JSValue.bool true)
    · exact Or.inr rfl
    · exact Or.inl rfl

/-- Any run from a boolean-flagged state ends in a boolean-flagged state. -/
theorem run_preserves_isBool (inst : Instance) :
    ∀ (ops : List Op) (s : MixinState), isBoolJS s.suppressKeyNavigation →
      isBoolJS (run inst s ops).1.suppressKeyNavigation := by
  intro ops
  induction ops with
  | nil => intro s h; exact h
  | cons op ops ih =>
      intro s h
      rw [run_cons]
      exact ih _ (step_preserves_isBool inst s op h)

/-- While the flag is the boolean true, a sequence of container dispatch
operations produces no invocation of the inherited navigation handler. -/
theorem run_dispatch_only_no_nav (inst : Instance) :
    ∀ (ops : List Op) (s : MixinState),
      s.suppressKeyNavigation = JSValue.bool true →
      (∀ op ∈ ops, op.isDispatch = true) →
      navInvocations (run inst s ops).2 = 0 := by
  intro ops
  induction ops with
  | nil => intro s hs hd; rfl
  | cons op ops ih =>
      intro s hs hd
      have hop : op.isDispatch = true := hd op (List.mem_cons_self op ops)
      have hrest : ∀ o ∈ ops, o.isDispatch = true :=
        fun o ho => hd o (List.mem_cons_of_mem op ho)
      have hne : s.suppressKeyNavigation ≠ JSValue.bool false := by
        rw [hs]
        intro hcontra
        exact Bool.noConfusion (JSValue.bool.inj hcontra)
      cases op with
      | containerKeypress evt =>
          rw [run_cons]
          simp only [step, onContainerKeypress, if_neg hne]
          exact ih s hs hrest
      | containerKeydown evt =>
          rw [run_cons]
          simp only [step, onContainerKeydown, if_neg hne]
          exact ih s hs hrest
      | keyPress evt => simp [Op.isDispatch] at hop
      | valueEntryKeyPress evt => simp [Op.isDispatch] at hop
      | suppressNav suppress node => simp [Op.isDispatch] at hop
      | focusRequest evt => simp [Op.isDispatch] at hop
      | suppressNotice evt => simp [Op.isDispatch] at hop

/-- Claim C1: the two container dispatch handlers forward a keyboard event to
the inherited navigation capability if and only if the suppression flag is
currently the boolean false, and while the flag is the boolean true the
navigation capability observes zero invocations over any number of dispatched
events. -/
theorem dispatch_forwards_iff_not_suppressed :
    (∀ (inst : Instance) (s : MixinState) (evt : KeyEvent),
        (Effect.inheritedKeypress ∈ (onContainerKeypress inst s evt).2 ↔
          s.suppressKeyNavigation = JSValue.bool false) ∧
        (Effect.inheritedKeydown ∈ (onContainerKeydown inst s evt).2 ↔
          s.suppressKeyNavigation = JSValue.bool false)) ∧
    (∀ (inst : Instance) (s : MixinState) (ops : List Op),
        s.suppressKeyNavigation = JSValue.bool true →
        (∀ op ∈ ops, op.isDispatch = true) →
        navInvocations (run inst s ops).2 = 0) := by
  constructor
  · intro inst s evt
    constructor
    · unfold onContainerKeypress
      split
      next h => simp [h]
      next h => simp [h]
    · unfold onContainerKeydown
      split
      next h => simp [h]
      next h => simp [h]
  · exact fun inst s ops hs hd => run_dispatch_only_no_nav inst ops s hs hd

theorem dispatch_forwards_iff_not_suppressed_witness :
    ({ suppressKeyNavigation := JSValue.bool true } :
        MixinState).suppressKeyNavigation = JSValue.bool true ∧
    navInvocations (run { domNode := 0 }
      { suppressKeyNavigation := JSValue.bool true }
      [Op.containerKeypress {}, Op.containerKeydown {}]).2 = 0 :=
  ⟨rfl, dispatch_forwards_iff_not_suppressed.2 { domNode := 0 }
    { suppressKeyNavigation := JSValue.bool true }
    [Op.containerKeypress {}, Op.containerKeydown {}] rfl (by decide)⟩

/-- Claim C2: after any sequence of suppression notices the flag equals the
most recent payload compared by strict equality to the boolean true; a
repeated notice with the same payload is idempotent; any payload other than
the boolean literal true (including truthy non-booleans and a missing field)
yields the boolean false. -/
theorem onSuppressionNotice_last_wins :
    (∀ (inst : Instance) (s : MixinState) (es : List SuppressEvent)
        (e : SuppressEvent),
        (run inst s ((es ++ [e]).map Op.suppressNotice)).1.suppressKeyNavigation =
          JSValue.bool (decide (e.suppress = JSValue.bool true))) ∧
    (∀ (inst : Instance) (s : MixinState) (e : SuppressEvent),
        (step inst (step inst s (Op.suppressNotice e)).1
            (Op.suppressNotice e)).1 =
          (step inst s (Op.suppressNotice e)).1) ∧
    (∀ (inst : Instance) (s : MixinState) (e : SuppressEvent),
        e.suppress ≠ JSValue.bool true →
        (step inst s (Op.suppressNotice e)).1.suppressKeyNavigation =
          JSValue.bool false) := by
  refine ⟨?_, ?_, ?_⟩
  · intro inst s es e
    induction es generalizing s with
    | nil => rfl
    | cons e2 es ih =>
        rw [List.cons_append, List.map_cons, run_cons]
        exact ih _
  · intro inst s e
    rfl
  · intro inst s e h
    simp only [step, onSuppressKeyNavigation]
    rw [decide_eq_false h]

theorem onSuppressionNotice_last_wins_witness :
    ({ suppress := JSValue.num 1 } : SuppressEvent).suppress ≠
        JSValue.bool true ∧
    (step { domNode := 0 } initState
        (Op.suppressNotice { suppress := JSValue.num 1 })).1.suppressKeyNavigation =
      JSValue.bool false :=
  ⟨by decide, onSuppressionNotice_last_wins.2.2 { domNode := 0 } initState
    { suppress := JSValue.num 1 } (by decide)⟩

/-- Claim C3: on a Ctrl+E chord (ctrlKey strictly true, charCode strictly
101) the handler stops propagation and, when registered, invokes the
edit-entry callback exactly once, independently of the other modifier keys;
on any other event it does nothing. -/
theorem onKeyPress_edit_chord :
    (∀ (inst : Instance) (s : MixinState) (evt : KeyEvent),
        evt.ctrlKey = JSValue.bool true → evt.charCode = JSValue.num 101 →
        Effect.stopEvent ∈ (onKeyPress inst s evt).2 ∧
          (inst.onEditClick = true →
            (onKeyPress inst s evt).2.count Effect.callOnEditClick = 1)) ∧
    (∀ (inst : Instance) (s : MixinState) (evt : KeyEvent),
        ¬(evt.ctrlKey = JSValue.bool true ∧ evt.charCode = JSValue.num 101) →
        (onKeyPress inst s evt).2 = []) := by
  constructor
  · intro inst s evt h1 h2
    unfold onKeyPress
    rw [if_pos ⟨h1, h2⟩]
    constructor
    · exact List.mem_cons_self _ _
    · intro hE
      rw [hE]
      rfl
  · intro inst s evt h
    unfold onKeyPress
    rw [if_neg h]

theorem onKeyPress_edit_chord_witness :
    Effect.stopEvent ∈ (onKeyPress { domNode := 0, onEditClick := true }
      initState
      { ctrlKey := JSValue.bool true, charCode := JSValue.num 101,
        shiftKey := JSValue.bool true }).2 ∧
    (onKeyPress { domNode := 0, onEditClick := true } initState
      { ctrlKey := JSValue.bool true, charCode := JSValue.num 101,
        shiftKey := JSValue.bool true }).2.count Effect.callOnEditClick = 1 :=
  ⟨(onKeyPress_edit_chord.1 _ _ _ rfl rfl).1,
    (onKeyPress_edit_chord.1 _ _ _ rfl rfl).2 rfl⟩

/-- Claim C4: the value-entry key handler stops propagation and invokes the
cancel callback (when registered) on Escape, stops propagation and invokes
the save callback (when registered) on Enter when the key is not Escape, does
nothing otherwise, and never invokes both callbacks in one call. -/
theorem onValueEntryKeyPress_cases :
    (∀ (inst : Instance) (s : MixinState) (e : KeyEvent),
        (e.charOrCode = keysESCAPE ∨ e.keyCode = keysESCAPE) →
        (onValueEntryKeyPress inst s e).2 =
          Effect.stopEvent ::
            (if inst.onCancel then [Effect.callOnCancel] else [])) ∧
    (∀ (inst : Instance) (s : MixinState) (e : KeyEvent),
        ¬(e.charOrCode = keysESCAPE ∨ e.keyCode = keysESCAPE) →
        (e.charOrCode = keysENTER ∨ e.keyCode = keysENTER) →
        (onValueEntryKeyPress inst s e).2 =
          Effect.stopEvent ::
            (if inst.onSave then [Effect.callOnSave] else [])) ∧
    (∀ (inst : Instance) (s : MixinState) (e : KeyEvent),
        ¬(e.charOrCode = keysESCAPE ∨ e.keyCode = keysESCAPE) →
        ¬(e.charOrCode = keysENTER ∨ e.keyCode = keysENTER) →
        (onValueEntryKeyPress inst s e).2 = []) ∧
    (∀ (inst : Instance) (s : MixinState) (e : KeyEvent),
        ¬(Effect.callOnCancel ∈ (onValueEntryKeyPress inst s e).2 ∧
          Effect.callOnSave ∈ (onValueEntryKeyPress inst s e).2)) := by
  refine ⟨?_, ?_, ?_, ?_⟩
  · intro inst s e h
    unfold onValueEntryKeyPress
    rw [if_pos h]
  · intro inst s e h1 h2
    unfold onValueEntryKeyPress
    rw [if_neg h1, if_pos h2]
  · intro inst s e h1 h2
    unfold onValueEntryKeyPress
    rw [if_neg h1, if_neg h2]
  · intro inst s e
    unfold onValueEntryKeyPress
    split
    · cases hC : inst.onCancel <;> simp
    · split
      · cases hS : inst.onSave <;> simp
      · simp

theorem onValueEntryKeyPress_cases_witness :
    (({ keyCode := JSValue.num 27 } : KeyEvent).charOrCode = keysESCAPE ∨
      ({ keyCode := JSValue.num 27 } : KeyEvent).keyCode = keysESCAPE) ∧
    (onValueEntryKeyPress { domNode := 0, onCancel := true, onSave := true }
        initState { keyCode := JSValue.num 27 }).2 =
      Effect.stopEvent ::
        (if ({ domNode := 0, onCancel := true, onSave := true } :
            Instance).onCancel then [Effect.callOnCancel] else []) :=
  ⟨Or.inr rfl, onValueEntryKeyPress_cases.1
    { domNode := 0, onCancel := true, onSave := true } initState
    { keyCode := JSValue.num 27 } (Or.inr rfl)⟩

/-- Claim C5: a suppression request emits exactly one notification, named by
`suppressEventName`, bubbling and cancelable, carrying the given suppress
payload, dispatched from the given target node when one is supplied and
otherwise from the widget root node, without touching the state. -/
theorem requestSuppression_emits_notification :
    ∀ (inst : Instance) (s : MixinState) (suppress : JSValue),
      (∀ n : Nat,
        suppressContainerKeyboardNavigation inst s suppress (some n) =
          (s, [Effect.emit n suppressEventName true true suppress])) ∧
      suppressContainerKeyboardNavigation inst s suppress none =
        (s, [Effect.emit inst.domNode suppressEventName true true suppress]) := by
  intro inst s suppress
  exact ⟨fun n => rfl, rfl⟩

/-- Claim C6: for any single event handled by the edit-shortcut handler or
the value-entry key handler, whenever a callback is invoked the
propagation-stop is the first effect, so stopping happens before any
callback runs. -/
theorem stop_precedes_callbacks :
    ∀ (inst : Instance) (s : MixinState) (evt : KeyEvent),
      ((onKeyPress inst s evt).2.any Effect.isCallback = true →
        (onKeyPress inst s evt).2.head? = some Effect.stopEvent) ∧
      ((onValueEntryKeyPress inst s evt).2.any Effect.isCallback = true →
        (onValueEntryKeyPress inst s evt).2.head? = some Effect.stopEvent) := by
  intro inst s evt
  constructor
  · unfold onKeyPress
    split
    · intro _
      rfl
    · intro h
      exact Bool.noConfusion h
  · unfold onValueEntryKeyPress
    split
    · intro _
      rfl
    · split
      · intro _
        rfl
      · intro h
        exact Bool.noConfusion h

theorem stop_precedes_callbacks_witness :
    (onKeyPress { domNode := 0, onEditClick := true } initState
      { ctrlKey := JSValue.bool true, charCode := JSValue.num 101 }).2.any
        Effect.isCallback = true ∧
    (onKeyPress { domNode := 0, onEditClick := true } initState
      { ctrlKey := JSValue.bool true, charCode := JSValue.num 101 }).2.head? =
      some Effect.stopEvent :=
  ⟨by decide, (stop_precedes_callbacks { domNode := 0, onEditClick := true }
    initState
    { ctrlKey := JSValue.bool true, charCode := JSValue.num 101 }).1
    (by decide)⟩

/-- Claim C7: the click guard always stops propagation of a supplied click
event, whatever the current state, and returns the state unchanged. -/
theorem guardClickPropagation_always_stops :
    ∀ (inst : Instance) (s : MixinState) (evt : ClickEvent),
      suppressFocusRequest inst s (some evt) = (s, [Effect.stopEvent]) := by
  intro inst s evt
  rfl

/-- Claim C8: the suppression flag starts as the boolean false at
construction, and every operation other than the suppression notice leaves
the mutable state unchanged, so the flag is mutated exclusively by
`onSuppressKeyNavigation`. -/
theorem suppressed_flag_mutated_only_by_notice :
    initState.suppressKeyNavigation = JSValue.bool false ∧
    ∀ (inst : Instance) (s : MixinState) (op : Op),
      (∀ evt : SuppressEvent, op ≠ Op.suppressNotice evt) →
      (step inst s op).1 = s :=
  ⟨rfl, step_fst_of_not_notice⟩

theorem suppressed_flag_mutated_only_by_notice_witness :
    (step { domNode := 0 } initState (Op.focusRequest none)).1 = initState :=
  suppressed_flag_mutated_only_by_notice.2 { domNode := 0 } initState
    (Op.focusRequest none) (fun evt h => Op.noConfusion h)

/-- Claim C9: absent callbacks are silent no-ops, never errors: with the
edit callback unregistered the edit-shortcut handler invokes no callback,
and with the cancel or save callback unregistered the value-entry handler
never invokes the missing one. -/
theorem absent_callbacks_are_noops :
    ∀ (inst : Instance) (s : MixinState) (evt : KeyEvent),
      (inst.onEditClick = false →
        (onKeyPress inst s evt).2.any Effect.isCallback = false) ∧
      (inst.onCancel = false →
        Effect.callOnCancel ∉ (onValueEntryKeyPress inst s evt).2) ∧
      (inst.onSave = false →
        Effect.callOnSave ∉ (onValueEntryKeyPress inst s evt).2) := by
  intro inst s evt
  refine ⟨?_, ?_, ?_⟩
  · intro h
    unfold onKeyPress
    split
    · rw [h]
      rfl
    · rfl
  · intro h
    unfold onValueEntryKeyPress
    split
    · rw [h]
      simp [Effect.isCallback]
    · split
      · cases hS : inst.onSave <;> simp
      · simp
  · intro h
    unfold onValueEntryKeyPress
    split
    · cases hC : inst.onCancel <;> simp
    · split
      · rw [h]
        simp
      · simp

theorem absent_callbacks_are_noops_witness :
    ({ domNode := 0 } : Instance).onEditClick = false ∧
    (onKeyPress { domNode := 0 } initState
      { ctrlKey := JSValue.bool true, charCode := JSValue.num 101 }).2.any
        Effect.isCallback = false :=
  ⟨rfl, (absent_callbacks_are_noops { domNode := 0 } initState
    { ctrlKey := JSValue.bool true, charCode := JSValue.num 101 }).1 rfl⟩

/-- Claim C10: from construction, after every finite sequence of operations
the suppression flag is exactly the boolean true or the boolean false, and
consequently the dispatch handlers forward precisely when the flag is not the
boolean true (the strict test against false equals testing that suppression
is not active). -/
theorem flag_always_boolean :
    ∀ (inst : Instance) (ops : List Op) (evt : KeyEvent),
      isBoolJS ((run inst initState ops).1.suppressKeyNavigation) ∧
      (Effect.inheritedKeypress ∈
          (onContainerKeypress inst (run inst initState ops).1 evt).2 ↔
        ¬(run inst initState ops).1.suppressKeyNavigation = JSValue.bool true) ∧
      (Effect.inheritedKeydown ∈
          (onContainerKeydown inst (run inst initState ops).1 evt).2 ↔
        ¬(run inst initState ops).1.suppressKeyNavigation = JSValue.bool true) := by
  intro inst ops evt
  have hb : isBoolJS ((run inst initState ops).1.suppressKeyNavigation) :=
    run_preserves_isBool inst ops initState (Or.inr rfl)
  refine ⟨hb, ?_, ?_⟩
  · unfold onContainerKeypress
    rcases hb with h | h
    · rw [h]
      simp
    · rw [h]
      simp
  · unfold onContainerKeydown
    rcases hb with h | h
    · rw [h]
      simp
    · rw [h]
      simp

end KeyNav
